import Mathlib

/-!
Verification of the cricket shot analysis core (`analysis.py`, `advice_engine.py`).

The Python code is shallowly embedded over `ℚ`.  The per-frame angle metrics
(`calculate_angle`, `calculate_vector_angle`) are computed with `atan2` in the
source and have no exact rational form; since the phase-transition logic and
every claim under study never read those values (they are only stored and later
averaged / compared), each detected frame carries them as given rational inputs,
while `weight_transfer` (pure coordinate arithmetic) is computed from the
landmark coordinates exactly as in the source.
-/

namespace Cricket

/-- The phase value held by `stage` in `analyze_cricket_shot`:
the four phases plus the initial pseudo-state `"UNKNOWN"`. -/
inductive Stage where
  | UNKNOWN
  | STANCE
  | BACKLIFT
  | DOWNSWING
  | FOLLOW_THROUGH
deriving DecidableEq, Repr

/-- Position in the phase order; `UNKNOWN` sits below `STANCE`. -/
def Stage.idx : Stage → ℕ
  | .UNKNOWN => 0
  | .STANCE => 1
  | .BACKLIFT => 2
  | .DOWNSWING => 3
  | .FOLLOW_THROUGH => 4

/-- A normalized 2D landmark coordinate. -/
structure Point where
  x : ℚ
  y : ℚ
deriving DecidableEq, Repr

/-- One detected pose frame: the landmark coordinates read by the phase logic
and the weight-transfer computation, together with the `atan2`-based per-frame
metric values (`calculate_angle` / `calculate_vector_angle` outputs), which are
taken as inputs of the frame since no control flow depends on them. -/
structure Frame where
  leftWrist : Point
  nose : Point
  rightShoulder : Point
  leftHip : Point
  rightHip : Point
  leftAnkle : Point
  rightAnkle : Point
  /-- `calculate_angle(left_hip, left_knee, left_ankle)` -/
  kneeAngle : ℚ
  /-- `calculate_vector_angle(left_knee, left_hip)` -/
  legDirection : ℚ
  /-- `calculate_vector_angle(right_shoulder, left_shoulder)` -/
  bodyDirection : ℚ
  /-- `calculate_vector_angle(shoulder_midpoint, nose)` -/
  headDirection : ℚ
  /-- `calculate_angle(left_shoulder, left_elbow, left_wrist)` -/
  elbowAngle : ℚ
deriving DecidableEq, Repr

/-- `weight_transfer = hip_midpoint_x - ankle_midpoint_x` (source lines 151-153). -/
def weight_transfer (f : Frame) : ℚ :=
  (f.leftHip.x + f.rightHip.x) / 2 - (f.leftAnkle.x + f.rightAnkle.x) / 2

/-- The accumulator lists of one entry of `phase_data`.  `elbowAngles` models the
`elbow_angles` list that only the `DOWNSWING` entry carries in the source. -/
structure PhaseAcc where
  kneeAngles : List ℚ
  legDirections : List ℚ
  headDirections : List ℚ
  bodyDirections : List ℚ
  weightTransfers : List ℚ
  elbowAngles : List ℚ
deriving DecidableEq, Repr

def PhaseAcc.empty : PhaseAcc := ⟨[], [], [], [], [], []⟩

/-- The `phase_data` dictionary: one accumulator per phase. -/
structure PhaseData where
  STANCE : PhaseAcc
  BACKLIFT : PhaseAcc
  DOWNSWING : PhaseAcc
  FOLLOW_THROUGH : PhaseAcc
deriving DecidableEq, Repr

def PhaseData.empty : PhaseData := ⟨.empty, .empty, .empty, .empty⟩

def PhaseData.acc (pd : PhaseData) : Stage → PhaseAcc
  | .UNKNOWN => .empty
  | .STANCE => pd.STANCE
  | .BACKLIFT => pd.BACKLIFT
  | .DOWNSWING => pd.DOWNSWING
  | .FOLLOW_THROUGH => pd.FOLLOW_THROUGH

/-- Append one frame's metric samples to one accumulator
(source lines 157-165); the elbow angle is appended only when the
target phase is `DOWNSWING`. -/
def PhaseAcc.push (a : PhaseAcc) (f : Frame) (isDownswing : Bool) : PhaseAcc :=
  { kneeAngles := a.kneeAngles ++ [f.kneeAngle]
    legDirections := a.legDirections ++ [f.legDirection]
    bodyDirections := a.bodyDirections ++ [f.bodyDirection]
    headDirections := a.headDirections ++ [f.headDirection]
    weightTransfers := a.weightTransfers ++ [weight_transfer f]
    elbowAngles := if isDownswing then a.elbowAngles ++ [f.elbowAngle] else a.elbowAngles }

/-- `if stage in phase_data: ... append ...` (source lines 156-165):
store the frame's samples in the accumulator of `s`; `UNKNOWN` is not a key of
`phase_data`, so nothing is stored for it. -/
def PhaseData.store (pd : PhaseData) (s : Stage) (f : Frame) : PhaseData :=
  match s with
  | .UNKNOWN => pd
  | .STANCE => { pd with STANCE := pd.STANCE.push f false }
  | .BACKLIFT => { pd with BACKLIFT := pd.BACKLIFT.push f false }
  | .DOWNSWING => { pd with DOWNSWING := pd.DOWNSWING.push f true }
  | .FOLLOW_THROUGH => { pd with FOLLOW_THROUGH := pd.FOLLOW_THROUGH.push f false }

/-- The mutable run state of `analyze_cricket_shot`. -/
structure RunState where
  stage : Stage
  followThroughFrames : ℕ
  phaseData : PhaseData
deriving DecidableEq, Repr

def RunState.init : RunState := ⟨.UNKNOWN, 0, .empty⟩

/-- Transition check 0 (source line 138): `if stage == "UNKNOWN": stage = "STANCE"`. -/
def resolveUnknown (s : Stage) : Stage :=
  if s = .UNKNOWN then .STANCE else s

/-- Transition check 1 (source line 139):
`if stage in ["STANCE", "BACKLIFT"] and left_wrist[1] < nose[1] * 1.1: stage = "BACKLIFT"`. -/
def check1 (s : Stage) (f : Frame) : Stage :=
  if (s = .STANCE ∨ s = .BACKLIFT) ∧ f.leftWrist.y < f.nose.y * (11/10) then .BACKLIFT else s

/-- Transition check 2 (source line 140):
`if stage == "BACKLIFT" and left_wrist[1] > nose[1] * 0.9: stage = "DOWNSWING"`. -/
def check2 (s : Stage) (f : Frame) : Stage :=
  if s = .BACKLIFT ∧ f.leftWrist.y > f.nose.y * (9/10) then .DOWNSWING else s

/-- Transition check 3 (source line 141):
`if stage == "DOWNSWING" and left_wrist[0] > right_shoulder[0]: stage = "FOLLOW_THROUGH"`. -/
def check3 (s : Stage) (f : Frame) : Stage :=
  if s = .DOWNSWING ∧ f.leftWrist.x > f.rightShoulder.x then .FOLLOW_THROUGH else s

/-- One detected frame of the per-frame loop (source lines 137-174), translated
statement by statement: the four sequential `if`s over `stage`, the metric
extraction, the phase-keyed append, and the follow-through counter. -/
def processFrame (st : RunState) (f : Frame) : RunState :=
  let s0 := if st.stage = .UNKNOWN then .STANCE else st.stage
  let s1 := if (s0 = .STANCE ∨ s0 = .BACKLIFT) ∧ f.leftWrist.y < f.nose.y * (11/10) then
      .BACKLIFT else s0
  let s2 := if s1 = .BACKLIFT ∧ f.leftWrist.y > f.nose.y * (9/10) then .DOWNSWING else s1
  let s3 := if s2 = .DOWNSWING ∧ f.leftWrist.x > f.rightShoulder.x then .FOLLOW_THROUGH else s2
  let pd := st.phaseData.store s3 f
  let ftf := if s3 = .FOLLOW_THROUGH then st.followThroughFrames + 1 else st.followThroughFrames
  ⟨s3, ftf, pd⟩

/-- One iteration of the frame loop: a frame with no detectable landmarks raises
inside the `try` block and is skipped (`except: pass`), leaving the state
unchanged; otherwise `processFrame` runs. -/
def stepFrame (st : RunState) (f : Option Frame) : RunState :=
  match f with
  | none => st
  | some fr => processFrame st fr

/-- `FOLLOW_THROUGH_BUFFER = 30` (source line 96). -/
def FOLLOW_THROUGH_BUFFER : ℕ := 30

/-- The early-exit test after each frame (source line 182):
`if stage == "FOLLOW_THROUGH" and follow_through_frames >= FOLLOW_THROUGH_BUFFER: break`. -/
def stopAfter (st : RunState) : Prop :=
  st.stage = .FOLLOW_THROUGH ∧ FOLLOW_THROUGH_BUFFER ≤ st.followThroughFrames

instance (st : RunState) : Decidable (stopAfter st) := by
  unfold stopAfter; infer_instance

/-- The frame loop of `analyze_cricket_shot` over a list of frames
(`none` = detection failure), with the follow-through early exit. -/
def runFrames : RunState → List (Option Frame) → RunState
  | st, [] => st
  | st, f :: fs =>
    let st' := stepFrame st f
    if stopAfter st' then st' else runFrames st' fs

/-- The sequence of phase values held by `stage` at the end of each processed
frame of a run (the value displayed on each frame), including the early exit. -/
def runTrace : RunState → List (Option Frame) → List Stage
  | _, [] => []
  | st, f :: fs =>
    let st' := stepFrame st f
    if stopAfter st' then [st'.stage] else st'.stage :: runTrace st' fs

/-! ### Final metrics processing (source lines 188-224) -/

/-- `def get_avg(data): return np.mean(data) if data else 0`. -/
def get_avg (l : List ℚ) : ℚ := if l = [] then 0 else l.sum / l.length

/-- `def get_last(data): return data[-1] if data else 0`. -/
def get_last (l : List ℚ) : ℚ := (l.getLast?).getD 0

/-- `max(data)` for a nonempty list, 0 otherwise (used for `max_elbow_angle`,
source line 205). -/
def list_max : List ℚ → ℚ
  | [] => 0
  | x :: xs => xs.foldl max x

/-! ### Shot classifier (`detect_shot_type`, source lines 23-85)

In exact rational arithmetic none of the operations below can raise, so the
`except` branch returning `("UNKNOWN", 0.0)` is unreachable; the guarded mean
and `[-1]` accesses are always applied to nonempty lists. -/

/-- `body_rotation` (source lines 30-33): 0 unless both the STANCE and the
DOWNSWING `body_directions` lists are nonempty. -/
def bodyRotation (pd : PhaseData) : ℚ :=
  if pd.STANCE.bodyDirections ≠ [] ∧ pd.DOWNSWING.bodyDirections ≠ [] then
    |get_avg pd.STANCE.bodyDirections - get_last pd.DOWNSWING.bodyDirections|
  else 0

/-- `weight_shift` (source lines 35-38): 0 unless both the STANCE and the
DOWNSWING `weight_transfers` lists are nonempty. -/
def weightShift (pd : PhaseData) : ℚ :=
  if pd.STANCE.weightTransfers ≠ [] ∧ pd.DOWNSWING.weightTransfers ≠ [] then
    (get_last pd.DOWNSWING.weightTransfers - get_avg pd.STANCE.weightTransfers) * 100
  else 0

/-- `backlift_height` (source line 41):
`len(BACKLIFT.knee_angles) / max(len(STANCE.knee_angles), 1)`. -/
def backliftHeight (pd : PhaseData) : ℚ :=
  (pd.BACKLIFT.kneeAngles.length : ℚ) / (max pd.STANCE.kneeAngles.length 1 : ℕ)

/-- `detect_shot_type` (source lines 23-85): the ordered `if`/`elif` cascade. -/
def detect_shot_type (pd : PhaseData) : String × ℚ :=
  let rotation := bodyRotation pd
  let shift := weightShift pd
  let backlift := backliftHeight pd
  if rotation < 15 ∧ |shift| < 5 ∧ backlift < 1/2 then ("DEFENSIVE", 85/100)
  else if shift > 5 ∧ 15 ≤ rotation ∧ rotation ≤ 45 then ("DRIVE", 80/100)
  else if rotation > 50 ∧ shift < 5 then ("PULL/HOOK", 75/100)
  else if rotation > 45 ∧ shift < 3 ∧
      pd.DOWNSWING.kneeAngles.length < pd.BACKLIFT.kneeAngles.length then ("CUT", 75/100)
  else if rotation > 60 then ("SWEEP", 70/100)
  else if backlift > 12/10 ∧ rotation > 30 then ("LOFTED", 70/100)
  else ("FORWARD SHOT", 60/100)

/-- The `final_metrics` record assembled at the end of `analyze_cricket_shot`. -/
structure FinalMetrics where
  stance_body_direction : ℚ
  impact_body_direction : ℚ
  body_rotation_over_time : List ℚ
  stance_leg_direction : ℚ
  impact_leg_direction : ℚ
  weight_transfer_amount : ℚ
  max_elbow_angle : ℚ
  stance_knee_angle : ℚ
  downswing_knee_angle : ℚ
  stance_head_direction : ℚ
  downswing_head_direction : ℚ
  shot_type : String
  shot_confidence : ℚ
  body_rotation_total : ℚ
  head_movement : ℚ
  knee_bracing : ℚ
deriving DecidableEq, Repr

/-- Final metrics processing (source lines 189-219), field for field. -/
def finalMetrics (pd : PhaseData) : FinalMetrics :=
  let stance_body_direction := get_avg pd.STANCE.bodyDirections
  let impact_body_direction := get_last pd.DOWNSWING.bodyDirections
  let initial_weight := get_avg pd.STANCE.weightTransfers
  let impact_weight := get_last pd.DOWNSWING.weightTransfers
  let stance_head_direction := get_avg pd.STANCE.headDirections
  let downswing_head_direction := get_avg pd.DOWNSWING.headDirections
  let stance_knee_angle := get_avg pd.STANCE.kneeAngles
  let downswing_knee_angle := get_avg pd.DOWNSWING.kneeAngles
  let st := detect_shot_type pd
  { stance_body_direction := stance_body_direction
    impact_body_direction := impact_body_direction
    body_rotation_over_time := pd.STANCE.bodyDirections ++ pd.BACKLIFT.bodyDirections ++
      pd.DOWNSWING.bodyDirections ++ pd.FOLLOW_THROUGH.bodyDirections
    stance_leg_direction := get_avg pd.STANCE.legDirections
    impact_leg_direction := get_last pd.DOWNSWING.legDirections
    weight_transfer_amount := (impact_weight - initial_weight) * 100
    max_elbow_angle := if pd.DOWNSWING.elbowAngles ≠ [] then list_max pd.DOWNSWING.elbowAngles else 0
    stance_knee_angle := stance_knee_angle
    downswing_knee_angle := downswing_knee_angle
    stance_head_direction := stance_head_direction
    downswing_head_direction := downswing_head_direction
    shot_type := st.1
    shot_confidence := st.2
    body_rotation_total := |stance_body_direction - impact_body_direction|
    head_movement := |stance_head_direction - downswing_head_direction|
    knee_bracing := downswing_knee_angle - stance_knee_angle }

/-- The whole pipeline on a frame sequence: run the phase machine, then
assemble the terminal metrics record. -/
def analyze_cricket_shot (frames : List (Option Frame)) : FinalMetrics :=
  finalMetrics (runFrames RunState.init frames).phaseData

/-! ### Metrics records handed to the advice / improvement engines

Both engines consume a plain metrics dictionary; keys may be absent
(`if metric in metrics` guards), so every field is an `Option`. -/

/-- The metrics dictionary fields read by `CricketAdviceEngine.generate_advice`
and `ImprovementEngine.analyze_improvement`. -/
structure MetricsDict where
  shot_type : Option String := none
  shot_confidence : Option ℚ := none
  max_elbow_angle : Option ℚ := none
  weight_transfer_amount : Option ℚ := none
  body_rotation_total : Option ℚ := none
  head_movement : Option ℚ := none
  knee_bracing : Option ℚ := none
  stance_knee_angle : Option ℚ := none
deriving DecidableEq, Repr

/-- `metrics[name]` for the four comparison metric keys (`none` = key absent). -/
def MetricsDict.get (m : MetricsDict) : String → Option ℚ
  | "max_elbow_angle" => m.max_elbow_angle
  | "weight_transfer_amount" => m.weight_transfer_amount
  | "body_rotation_total" => m.body_rotation_total
  | "head_movement" => m.head_movement
  | _ => none

/-! ### `ImprovementEngine` (`advice_engine.py` lines 743-1000) -/

/-- `self.optimal_ranges` (source lines 751-794). -/
def optimal_ranges : List (String × List (String × (ℚ × ℚ))) :=
  [("DRIVE", [("max_elbow_angle", (165, 180)), ("weight_transfer_amount", (8, 20)),
      ("body_rotation_total", (20, 45)), ("head_movement", (0, 10))]),
   ("PULL/HOOK", [("max_elbow_angle", (150, 180)), ("weight_transfer_amount", (-5, 2)),
      ("body_rotation_total", (45, 75)), ("head_movement", (0, 12))]),
   ("CUT", [("max_elbow_angle", (150, 180)), ("weight_transfer_amount", (-3, 5)),
      ("body_rotation_total", (45, 70)), ("head_movement", (0, 12))]),
   ("DEFENSIVE", [("max_elbow_angle", (160, 180)), ("weight_transfer_amount", (0, 5)),
      ("body_rotation_total", (0, 15)), ("head_movement", (0, 8))]),
   ("SWEEP", [("max_elbow_angle", (140, 170)), ("weight_transfer_amount", (3, 15)),
      ("body_rotation_total", (50, 80)), ("head_movement", (0, 15))]),
   ("LOFTED", [("max_elbow_angle", (155, 180)), ("weight_transfer_amount", (5, 20)),
      ("body_rotation_total", (25, 55)), ("head_movement", (0, 12))]),
   ("FORWARD SHOT", [("max_elbow_angle", (160, 180)), ("weight_transfer_amount", (5, 15)),
      ("body_rotation_total", (15, 40)), ("head_movement", (0, 10))])]

/-- `self.default_optimal` (source lines 797-802). -/
def default_optimal : List (String × (ℚ × ℚ)) :=
  [("max_elbow_angle", (155, 180)), ("weight_transfer_amount", (3, 15)),
   ("body_rotation_total", (20, 50)), ("head_movement", (0, 12))]

/-- `metric_info[...]['name']` (source lines 805-810). -/
def metricName : String → String
  | "max_elbow_angle" => "Elbow Extension"
  | "weight_transfer_amount" => "Weight Transfer"
  | "body_rotation_total" => "Body Rotation"
  | "head_movement" => "Head Stability"
  | _ => ""

/-- `metric_info[...]['unit']` (source lines 805-810). -/
def metricUnit : String → String
  | "max_elbow_angle" => "°"
  | "weight_transfer_amount" => "%"
  | "body_rotation_total" => "°"
  | "head_movement" => "°"
  | _ => "°"

/-- `_get_optimal_range` (source lines 812-815): per-shot table with a chain of
`dict.get` fallbacks to the default table and to `(0, 100)`. -/
def get_optimal_range (metric shot_type : String) : ℚ × ℚ :=
  let shot_ranges := (optimal_ranges.lookup shot_type).getD default_optimal
  (shot_ranges.lookup metric).getD ((default_optimal.lookup metric).getD (0, 100))

/-- `_calculate_metric_score` (source lines 817-842), translated branch for
branch.  (The `higher_is_better` parameter of the source is never read.) -/
def calculate_metric_score (value : ℚ) (optimal_range : ℚ × ℚ) : ℚ :=
  let opt_min := optimal_range.1
  let opt_max := optimal_range.2
  let opt_mid := (opt_min + opt_max) / 2
  if opt_min ≤ value ∧ value ≤ opt_max then
    let distance_from_mid := |value - opt_mid|
    let range_half := (opt_max - opt_min) / 2
    if range_half > 0 then 100 - distance_from_mid / range_half * 20 else 100
  else if value < opt_min then
    max (80 - min ((opt_min - value) * 2) 50) 20
  else
    max (80 - min ((value - opt_max) * 2) 50) 20

/-- One entry of `metric_comparisons` (source lines 873-881). -/
structure Comparison where
  original_value : ℚ
  followup_value : ℚ
  original_score : ℚ
  followup_score : ℚ
  score_change : ℚ
  status : String
  optimal_range : ℚ × ℚ
deriving DecidableEq, Repr

/-- `_calculate_improvement_delta` (source lines 844-881).  (The two
`*_distance` locals of the source are computed but never used.) -/
def calculate_improvement_delta (original followup : ℚ) (optimal_range : ℚ × ℚ) :
    Comparison :=
  let original_score := calculate_metric_score original optimal_range
  let followup_score := calculate_metric_score followup optimal_range
  let score_change := followup_score - original_score
  let status := if score_change > 5 then "improved"
    else if score_change < -5 then "regressed"
    else "maintained"
  ⟨original, followup, original_score, followup_score, score_change, status, optimal_range⟩

/-- Python's `round` (banker's rounding, half to even) on an exact rational. -/
def round_half_even (q : ℚ) : ℤ :=
  let f := ⌊q⌋
  let r := q - f
  if r < 1/2 then f
  else if 1/2 < r then f + 1
  else if Even f then f else f + 1

/-- `round(x, 1)` on an exact rational. -/
def round1 (q : ℚ) : ℚ := (round_half_even (q * 10) : ℚ) / 10

/-- The fixed list of compared metrics (source lines 892-893 / 993-994). -/
def comparison_metrics : List String :=
  ["max_elbow_angle", "weight_transfer_amount", "body_rotation_total", "head_movement"]

/-- `_calculate_overall_accuracy` (source lines 989-1000): mean of the
per-metric scores over the metrics present, rounded to one decimal. -/
def calculate_overall_accuracy (metrics : MetricsDict) (shot_type : String) : ℚ :=
  let scores := comparison_metrics.filterMap fun m =>
    (metrics.get m).map fun v => calculate_metric_score v (get_optimal_range m shot_type)
  round1 (scores.sum / (max scores.length 1 : ℕ))

/-- One entry of `improved_areas` / `regressed_areas` / `maintained_areas`
(source lines 923-947); maintained entries carry no `change` key. -/
structure Area where
  metric : String
  name : String
  change : Option ℚ
  from_value : ℚ
  to_value : ℚ
  unit : String
deriving DecidableEq, Repr

/-- The record returned by `analyze_improvement` (source lines 974-987). -/
structure ImprovementResult where
  shot_type : String
  followup_shot_type : String
  metric_comparisons : List (String × Comparison)
  improved_areas : List Area
  regressed_areas : List Area
  maintained_areas : List Area
  original_accuracy : ℚ
  followup_accuracy : ℚ
  accuracy_change : ℚ
  overall_verdict : String
  verdict_description : String
  improvement_score : ℚ
deriving DecidableEq, Repr

/-- The metrics present in both records, paired with their values, in the fixed
metric order (the `if metric in original_metrics and metric in followup_metrics`
filter of the comparison loop). -/
def analyzedPairs (original followup : MetricsDict) : List (String × ℚ × ℚ) :=
  comparison_metrics.filterMap fun m =>
    match original.get m, followup.get m with
    | some a, some b => some (m, a, b)
    | _, _ => none

/-- `analyze_improvement` (source lines 883-987).  The single Python loop is
split into one pass building the comparisons and filters recovering the three
area groupings; element order and contents coincide with the source's loop. -/
def analyze_improvement (original_metrics followup_metrics : MetricsDict) :
    ImprovementResult :=
  let shot_type := original_metrics.shot_type.getD "FORWARD SHOT"
  let followup_shot_type := followup_metrics.shot_type.getD "FORWARD SHOT"
  let comps : List (String × Comparison) :=
    (analyzedPairs original_metrics followup_metrics).map fun p =>
      (p.1, calculate_improvement_delta p.2.1 p.2.2 (get_optimal_range p.1 shot_type))
  let total_improvement_score := (comps.map fun c => c.2.score_change).sum
  let metrics_analyzed := comps.length
  let mkArea : String × Comparison → Bool → Area := fun c withChange =>
    { metric := c.1, name := metricName c.1
      change := if withChange then some c.2.score_change else none
      from_value := c.2.original_value, to_value := c.2.followup_value
      unit := metricUnit c.1 }
  let improved_areas := (comps.filter fun c => c.2.status = "improved").map (mkArea · true)
  let regressed_areas := (comps.filter fun c => c.2.status = "regressed").map (mkArea · true)
  let maintained_areas :=
    (comps.filter fun c => c.2.status ≠ "improved" ∧ c.2.status ≠ "regressed").map (mkArea · false)
  let avg_improvement := total_improvement_score / (max metrics_analyzed 1 : ℕ)
  let original_accuracy := calculate_overall_accuracy original_metrics shot_type
  let followup_accuracy := calculate_overall_accuracy followup_metrics shot_type
  let vd : String × String :=
    if followup_accuracy > original_accuracy + 5 then
      ("IMPROVED", "Great progress! Your technique has measurably improved.")
    else if followup_accuracy < original_accuracy - 5 then
      ("REGRESSED", "Your follow-up attempt shows some regression. This can happen when trying new techniques - keep practicing.")
    else if improved_areas.length > regressed_areas.length then
      ("SLIGHT_IMPROVEMENT", "Marginal improvement detected. You\x27re on the right track but there\x27s more work to do.")
    else if regressed_areas.length > improved_areas.length then
      ("SLIGHT_REGRESSION", "Your technique has slightly regressed. Review the feedback from your first attempt and focus on those areas.")
    else
      ("MAINTAINED", "Your technique is consistent between attempts. Focus on specific areas to see improvement.")
  { shot_type := shot_type
    followup_shot_type := followup_shot_type
    metric_comparisons := comps
    improved_areas := improved_areas
    regressed_areas := regressed_areas
    maintained_areas := maintained_areas
    original_accuracy := original_accuracy
    followup_accuracy := followup_accuracy
    accuracy_change := followup_accuracy - original_accuracy
    overall_verdict := vd.1
    verdict_description := vd.2
    improvement_score := min (max (50 + avg_improvement) 0) 100 }

/-! ### `CricketAdviceEngine` (`advice_engine.py` lines 25-385) -/

/-- One entry of the `_analyze_metrics` result:
`{'value': ..., 'status': ..., 'importance': ...}`. -/
structure MetricAnalysis where
  value : ℚ
  status : String
  importance : String
deriving DecidableEq, Repr

/-- Elbow angle analysis (source lines 392-409). -/
def elbowAnalysis (angle : ℚ) (shot_type : String) : MetricAnalysis :=
  if shot_type ∈ ["DRIVE", "DEFENSIVE", "FORWARD SHOT"] then
    if angle ≥ 165 then ⟨angle, "excellent", "high"⟩
    else if angle ≥ 155 then ⟨angle, "needs_improvement", "high"⟩
    else ⟨angle, "poor", "high"⟩
  else
    if angle ≥ 150 then ⟨angle, "excellent", "medium"⟩
    else if angle ≥ 135 then ⟨angle, "needs_improvement", "medium"⟩
    else ⟨angle, "poor", "high"⟩

/-- Weight transfer analysis (source lines 412-438). -/
def weightAnalysis (transfer : ℚ) (shot_type : String) : MetricAnalysis :=
  if shot_type ∈ ["DRIVE", "FORWARD SHOT", "LOFTED"] then
    if transfer ≥ 8 then ⟨transfer, "excellent", "high"⟩
    else if transfer ≥ 3 then ⟨transfer, "needs_improvement", "high"⟩
    else ⟨transfer, "poor", "high"⟩
  else if shot_type ∈ ["PULL/HOOK", "CUT"] then
    if transfer ≤ 2 then ⟨transfer, "excellent", "high"⟩
    else if transfer ≤ 5 then ⟨transfer, "needs_improvement", "high"⟩
    else ⟨transfer, "poor", "high"⟩
  else
    if 0 ≤ transfer ∧ transfer ≤ 5 then ⟨transfer, "excellent", "medium"⟩
    else ⟨transfer, "needs_improvement", "medium"⟩

/-- Body rotation analysis (source lines 441-469). -/
def rotationAnalysis (rotation : ℚ) (shot_type : String) : MetricAnalysis :=
  if shot_type ∈ ["PULL/HOOK", "SWEEP", "CUT"] then
    if rotation ≥ 45 then ⟨rotation, "excellent", "high"⟩
    else if rotation ≥ 30 then ⟨rotation, "needs_improvement", "high"⟩
    else ⟨rotation, "poor", "high"⟩
  else if shot_type = "DEFENSIVE" then
    if rotation ≤ 15 then ⟨rotation, "excellent", "high"⟩
    else if rotation ≤ 25 then ⟨rotation, "needs_improvement", "medium"⟩
    else ⟨rotation, "poor", "medium"⟩
  else
    if 20 ≤ rotation ∧ rotation ≤ 45 then ⟨rotation, "excellent", "medium"⟩
    else if rotation < 15 ∨ rotation > 60 then ⟨rotation, "poor", "high"⟩
    else ⟨rotation, "needs_improvement", "medium"⟩

/-- Head stability analysis (source lines 472-479). -/
def headAnalysis (head_movement : ℚ) : MetricAnalysis :=
  if head_movement ≤ 8 then ⟨head_movement, "excellent", "high"⟩
  else if head_movement ≤ 20 then ⟨head_movement, "needs_improvement", "high"⟩
  else ⟨head_movement, "poor", "high"⟩

/-- Knee bracing analysis (source lines 482-491); only added for the two
forward shot types. -/
def kneeBracingAnalysis (knee_bracing : ℚ) (shot_type : String) : Option MetricAnalysis :=
  if shot_type ∈ ["DRIVE", "FORWARD SHOT"] then
    some (if knee_bracing ≥ 15 then ⟨knee_bracing, "excellent", "medium"⟩
      else if knee_bracing ≥ 5 then ⟨knee_bracing, "needs_improvement", "medium"⟩
      else ⟨knee_bracing, "poor", "medium"⟩)
  else none

/-- Stance knee analysis (source lines 493-500). -/
def stanceKneeAnalysis (knee_angle : ℚ) : MetricAnalysis :=
  if 120 ≤ knee_angle ∧ knee_angle ≤ 145 then ⟨knee_angle, "excellent", "low"⟩
  else if knee_angle < 110 ∨ knee_angle > 160 then ⟨knee_angle, "poor", "medium"⟩
  else ⟨knee_angle, "needs_improvement", "low"⟩

/-- `_analyze_metrics` (source lines 387-502): an insertion-ordered dictionary;
each metric contributes an entry only when its key is present. -/
def analyze_metrics (metrics : MetricsDict) (shot_type : String) :
    List (String × MetricAnalysis) :=
  (match metrics.max_elbow_angle with
    | some v => [("elbow_angle", elbowAnalysis v shot_type)]
    | none => []) ++
  (match metrics.weight_transfer_amount with
    | some v => [("weight_transfer", weightAnalysis v shot_type)]
    | none => []) ++
  (match metrics.body_rotation_total with
    | some v => [("body_rotation", rotationAnalysis v shot_type)]
    | none => []) ++
  (match metrics.head_movement with
    | some v => [("head_stability", headAnalysis v)]
    | none => []) ++
  (match metrics.knee_bracing with
    | some v => (kneeBracingAnalysis v shot_type).elim [] (fun a => [("knee_bracing", a)])
    | none => []) ++
  (match metrics.stance_knee_angle with
    | some v => [("stance_knee", stanceKneeAnalysis v)]
    | none => [])

/-- `"{v:.1f}"`: one-decimal rendering of a rational (the source formats a
binary double; exact rationals are rendered with round-half-even here). -/
def formatF1 (q : ℚ) : String :=
  let n := round_half_even (q * 10)
  (if n < 0 then "-" else "") ++ toString (n.natAbs / 10) ++ "." ++ toString (n.natAbs % 10)

/-- `_get_contextual_feedback` (source lines 504-585), translated branch for
branch; every fall-through path of the source returns the empty string. -/
def get_contextual_feedback (metric : String) (analysis : MetricAnalysis)
    (shot_type : String) (feedback_type : String) : String :=
  let value := analysis.value
  if feedback_type = "strength" then
    if metric = "elbow_angle" then
      "✅ Excellent arm extension (" ++ formatF1 value ++ "°) - your front arm is beautifully straight, generating optimal power and control"
    else if metric = "weight_transfer" then
      if shot_type ∈ ["DRIVE", "FORWARD SHOT"] then
        "✅ Perfect weight transfer forward (" ++ formatF1 value ++ ") - you\x27re getting excellent momentum into the shot"
      else if shot_type ∈ ["PULL/HOOK", "CUT"] then
        "✅ Good weight distribution (" ++ formatF1 value ++ ") - well balanced for a back-foot shot"
      else ""
    else if metric = "body_rotation" then
      if shot_type ∈ ["PULL/HOOK", "SWEEP"] then
        "✅ Powerful body rotation (" ++ formatF1 value ++ "°) - great use of your core to generate power"
      else if shot_type = "DEFENSIVE" then
        "✅ Controlled body movement (" ++ formatF1 value ++ "°) - excellent defensive technique with minimal rotation"
      else
        "✅ Good shoulder turn (" ++ formatF1 value ++ "°) - optimal rotation for this shot"
    else if metric = "head_stability" then
      "✅ Excellent head stability (" ++ formatF1 value ++ "° movement) - your head position is rock solid, crucial for timing"
    else if metric = "knee_bracing" then
      "✅ Strong front leg bracing (" ++ formatF1 value ++ "° extension) - solid base for power transfer"
    else if metric = "stance_knee" then
      "✅ Balanced stance position (" ++ formatF1 value ++ "°) - good athletic base"
    else ""
  else if feedback_type = "flaw" then
    if metric = "elbow_angle" then
      if shot_type ∈ ["DRIVE", "FORWARD SHOT"] then
        "⚠️ Bent front arm (" ++ formatF1 value ++ "°) - for drives, keep your front arm straighter through impact for better timing and power"
      else
        "⚠️ Elbow too bent (" ++ formatF1 value ++ "°) - work on fuller arm extension to improve bat speed"
    else if metric = "weight_transfer" then
      if shot_type ∈ ["DRIVE", "FORWARD SHOT", "LOFTED"] then
        if value < 0 then
          "⚠️ Weight going backwards (" ++ formatF1 value ++ ") - you\x27re falling away from the ball. Get your weight moving forward"
        else
          "⚠️ Insufficient weight transfer (" ++ formatF1 value ++ ") - commit more to moving forward into the shot"
      else if shot_type ∈ ["PULL/HOOK", "CUT"] then
        "⚠️ Too much forward weight transfer (" ++ formatF1 value ++ ") - these back-foot shots need weight back, not forward"
      else ""
    else if metric = "body_rotation" then
      if shot_type ∈ ["PULL/HOOK", "CUT"] then
        "⚠️ Limited body rotation (" ++ formatF1 value ++ "°) - generate more power by using your hips and shoulders"
      else if shot_type = "DEFENSIVE" then
        "⚠️ Excessive body movement (" ++ formatF1 value ++ "°) - defensive shots need minimal rotation for better control"
      else
        if value < 15 then
          "⚠️ Too little body rotation (" ++ formatF1 value ++ "°) - engage your core more to generate power"
        else
          "⚠️ Over-rotating (" ++ formatF1 value ++ "°) - this can cause loss of balance and power"
    else if metric = "head_stability" then
      "⚠️ Head movement detected (" ++ formatF1 value ++ "°) - excessive head movement disrupts timing and ball tracking"
    else if metric = "knee_bracing" then
      "⚠️ Weak front leg (" ++ formatF1 value ++ "° change) - brace your front leg more firmly for better energy transfer"
    else if metric = "stance_knee" then
      if value < 120 then
        "⚠️ Stance too low (" ++ formatF1 value ++ "°) - raise your stance slightly for better movement"
      else
        "⚠️ Stance too upright (" ++ formatF1 value ++ "°) - lower your stance for better balance"
    else ""
  else if feedback_type = "recommendation" then
    if metric = "elbow_angle" then
      "💡 Drill: Practice shadow batting with emphasis on keeping your front arm fully extended. Hold the finish position to feel the stretch"
    else if metric = "weight_transfer" then
      if shot_type ∈ ["DRIVE", "FORWARD SHOT"] then
        "💡 Drill: Practice stepping forward into a front-foot drive, focusing on feeling your weight shift onto your front foot"
      else if shot_type ∈ ["PULL/HOOK", "CUT"] then
        "💡 Drill: Practice weight transfer to your back foot. Do shadow pulls, ensuring you feel balanced on your back leg"
      else ""
    else if metric = "body_rotation" then
      if shot_type ∈ ["PULL/HOOK"] then
        "💡 Drill: Practice hip and shoulder rotation exercises. Focus on pivoting your back foot to generate power"
      else if shot_type = "DEFENSIVE" then
        "💡 Drill: Practice defensive shots with focus on minimal body movement - quiet hands and solid base"
      else
        "💡 Drill: Work on core rotation - practice turning your shoulders while keeping head still"
    else if metric = "head_stability" then
      "💡 Drill: Place a cap with water on your head during shadow batting. Practice keeping it balanced - this forces head stillness"
    else if metric = "knee_bracing" then
      "💡 Drill: Practice leg strengthening exercises (lunges, single-leg squats) to build a stronger, more stable base"
    else ""
  else ""

/-- The `'drills'` lists of `self.shot_specific_advice` (source lines 41-309).
Every entry of that table has a `'drills'` key, so the keys of this list are
exactly the keys of `shot_specific_advice`. -/
def shot_advice_drills : List (String × List String) :=
  [("DRIVE",
    ["Front foot drives off a bowling machine at 70% pace - focus on head position",
     "Shadow batting with mirror - check elbow height at impact point",
     "Throw-downs with tennis ball - exaggerate weight transfer",
     "Drive against wall with taped target - practice follow-through direction"]),
   ("PULL/HOOK",
    ["Short ball machine work - start at reduced pace and gradually increase",
     "Tennis ball throws at head height - practice ducking vs playing",
     "Pull shot shadow batting focusing on hip rotation",
     "Reaction drills with colored balls - decide pull vs duck"]),
   ("CUT",
    ["Side-on throw-downs outside off stump - practice leaving vs cutting decision",
     "Cut shot against spin bowling - develops timing and placement",
     "Back foot movement drills - quick lateral steps",
     "Wrist strengthening exercises for better bat control"]),
   ("DEFENSIVE",
    ["Defense against spin on turning pitches - practice smothering turn",
     "Ball drop exercises - soft hands catching drill",
     "Forward defense with eyes closed (after release) - trust technique",
     "Defense against seam movement - focus on playing late"]),
   ("SWEEP",
    ["Sweep against underarm spin throws - build confidence",
     "Knee strengthening for low position maintenance",
     "Placement practice - cones at fine leg, square leg, backward square",
     "Switch between sweep and pad-first defense based on line"]),
   ("LOFTED",
    ["Lofted drives with tennis ball first - build confidence",
     "Target practice - hit cones at different distances",
     "Footwork drills - quick steps to pitch of ball",
     "Balance exercises - single leg stability"]),
   ("FORWARD SHOT",
    ["Front foot stride practice with marker cones",
     "Head position drills - balance book on head during shadow batting",
     "Weight transfer exercises with resistance bands",
     "Slow motion practice focusing on sequence of movements"]),
   ("FLICK",
    ["Wrist flexibility exercises with bat",
     "Throw-downs on leg stump - practice placement",
     "Flick vs defend decision drills",
     "One-handed bottom hand practice for feel"]),
   ("LEAVE",
    ["Leave practice with colored balls - leave red, play blue",
     "Line and length judgment from side on video",
     "Practice sessions where you can only leave - builds patience",
     "Shoulder arms technique in front of mirror"]),
   ("BACK FOOT DEFENSE",
    ["Back foot trigger movement practice",
     "Short ball defense with tennis balls",
     "Shadow batting focusing on high hands",
     "Catching practice to develop soft hands"])]

/-- The `pro_tips` table of `_get_shot_specific_recommendations`
(source lines 597-608). -/
def pro_tips : List (String × String) :=
  [("DRIVE", "💡 Pro Tip: For classic drives, imagine painting a straight line from your bat\x27s position at address to your follow-through. Your head should be the heaviest thing going forward."),
   ("PULL/HOOK", "💡 Pro Tip: Watch the ball onto the bat - pull shots require excellent ball tracking. Commit early but execute late, and roll your wrists at impact to keep the ball down."),
   ("CUT", "💡 Pro Tip: Use your bottom hand to guide and your top hand to control - wrist flexibility is key. Wait for the ball to come to you, don\x27t go looking for it."),
   ("DEFENSIVE", "💡 Pro Tip: Think \x27soft hands\x27 - defensive shots should deaden the ball, not push it. Imagine you\x27re catching an egg - that\x27s the grip pressure you need."),
   ("SWEEP", "💡 Pro Tip: Get your front pad outside the line to give yourself room and protection. The sweep is premeditated - decide early and commit fully."),
   ("LOFTED", "💡 Pro Tip: Trust your technique and swing through - don\x27t try to hit too hard, let timing do the work. Get to the pitch of the ball with your feet."),
   ("FORWARD SHOT", "💡 Pro Tip: Your head should lead every forward movement. Where your head goes, your body follows. Practice until it becomes automatic."),
   ("FLICK", "💡 Pro Tip: The flick is all about timing the wrist turn. Play along the line first, then roll the wrists - think of it as redirecting, not hitting."),
   ("LEAVE", "💡 Pro Tip: The best batsmen know what not to play. A good leave is as valuable as a good shot - it shows control and understanding of your off stump."),
   ("BACK FOOT DEFENSE", "💡 Pro Tip: Get back and across quickly, but play the ball under your eyes. High hands and soft grip are your best friends against pace.")]

/-- `_get_shot_specific_recommendations` (source lines 587-618): empty for a
category outside the advice table, else the category\x27s pro tip followed by one
drill.  The source draws the drill with `random.choice`; the draw is modelled
by the index `drillPick`, reduced modulo the length of the drill list. -/
def get_shot_specific_recommendations (shot_type : String) (drillPick : ℕ) : List String :=
  match shot_advice_drills.lookup shot_type with
  | none => []
  | some drills =>
    (match pro_tips.lookup shot_type with
     | some tip => [tip]
     | none => []) ++
    (if drills ≠ [] then
      ["🏋️ Recommended Drill: " ++ drills.getD (drillPick % drills.length) ""]
     else [])

/-- The advice record returned by `generate_advice`.  (`shot_insights`, a
verbatim copy of static presentation data keyed by the category, is not
modelled.) -/
structure Advice where
  shot_type : String
  shot_confidence : ℚ
  strengths : List String
  flaws : List String
  recommendations : List String
deriving DecidableEq, Repr

/-- `priority_flaws` after the stable sort high-before-medium (source lines
352-360): Python\x27s stable sort with key `0 if high else 1` is the
concatenation of the two order-preserving filters. -/
def priority_flaws (ma : List (String × MetricAnalysis)) : List (String × MetricAnalysis) :=
  (ma.filter fun p => p.2.status = "poor") ++
  (ma.filter fun p => p.2.status = "needs_improvement")

/-- The strengths loop (source lines 345-349): `excellent` entries in
evaluation order, capped at 3. -/
def strengthsList (ma : List (String × MetricAnalysis)) (shot_type : String) : List String :=
  ((ma.filter fun p => p.2.status = "excellent").take 3).map
    fun p => get_contextual_feedback p.1 p.2 shot_type "strength"

/-- The flaws loop (source lines 361-362): top 4 priority flaws. -/
def flawsList (ma : List (String × MetricAnalysis)) (shot_type : String) : List String :=
  ((priority_flaws ma).take 4).map
    fun p => get_contextual_feedback p.1 p.2 shot_type "flaw"

/-- The recommendations loop (source lines 365-368): top 3 priority flaws,
keeping only truthy (nonempty) feedback strings. -/
def recsFromFlaws (ma : List (String × MetricAnalysis)) (shot_type : String) : List String :=
  (((priority_flaws ma).take 3).map
    fun p => get_contextual_feedback p.1 p.2 shot_type "recommendation").filter
    fun s => s ≠ ""

/-- `generate_advice` (source lines 311-385). -/
def generate_advice (metrics : MetricsDict) (drillPick : ℕ) : Advice :=
  let shot_type := metrics.shot_type.getD "UNKNOWN"
  let ma := analyze_metrics metrics shot_type
  let strengths := strengthsList ma shot_type
  let flaws := flawsList ma shot_type
  let recommendations := recsFromFlaws ma shot_type ++
    (get_shot_specific_recommendations shot_type drillPick).take 2
  { shot_type := shot_type
    shot_confidence := (metrics.shot_confidence).getD 0
    strengths := if strengths = [] then
        ["✅ Good attempt - continue practicing to refine your technique"]
      else strengths
    flaws := if flaws = [] then
        ["✅ Solid technique overall - minor refinements will take you to the next level"]
      else flaws
    recommendations := if recommendations = [] then
        ["💡 Keep practicing your current technique with focus on consistency"]
      else recommendations }

/-! ### Concrete inputs used by the witnesses and counterexamples -/

/-- Concrete phase data with `rotation = 10`, `shift = 2`,
`backlift_ratio = 0.3` (the test point named by the claim). -/
def rule1pd : PhaseData :=
  ⟨⟨[150, 150, 150, 150, 150, 150, 150, 150, 150, 150], [], [], [0], [0], []⟩,
   ⟨[150, 150, 150], [], [], [], [], []⟩,
   ⟨[], [], [], [10], [1/50], []⟩,
   PhaseAcc.empty⟩

/-- A frame whose wrist y sits strictly between 0.9 and 1.1 of the nose y
(with the wrist inside the trailing shoulder). -/
def midFrame : Frame :=
  { leftWrist := ⟨3/10, 1/2⟩, nose := ⟨1/2, 1/2⟩, rightShoulder := ⟨3/5, 1/2⟩
    leftHip := ⟨0, 0⟩, rightHip := ⟨0, 0⟩, leftAnkle := ⟨0, 0⟩, rightAnkle := ⟨0, 0⟩
    kneeAngle := 0, legDirection := 0, bodyDirection := 0, headDirection := 0
    elbowAngle := 0 }


/-- A frame whose wrist y is at most 0.9 of the nose y (ends in `BACKLIFT`
from a stance). -/
def lowWristFrame : Frame :=
  { midFrame with leftWrist := ⟨3/10, 2/5⟩, nose := ⟨1/2, 1⟩ }

/-- Phase data reachable in one frame (first frame lands in `DOWNSWING`):
`STANCE` lists empty, `DOWNSWING.body_directions` nonempty. -/
def mismatchPd : PhaseData :=
  { STANCE := PhaseAcc.empty
    BACKLIFT := PhaseAcc.empty
    DOWNSWING := { PhaseAcc.empty with bodyDirections := [5] }
    FOLLOW_THROUGH := PhaseAcc.empty }

/-- Phase data with all four guard lists nonempty. -/
def agreePd : PhaseData :=
  { STANCE := { PhaseAcc.empty with bodyDirections := [1], weightTransfers := [1] }
    BACKLIFT := PhaseAcc.empty
    DOWNSWING := { PhaseAcc.empty with bodyDirections := [2], weightTransfers := [2] }
    FOLLOW_THROUGH := PhaseAcc.empty }

/-- A metrics record with no keys present. -/
def emptyMetrics : MetricsDict := {}

/-- Category DEFENSIVE with only the weight-transfer metric present. -/
def defensiveWeightMetrics : MetricsDict :=
  { shot_type := some "DEFENSIVE", weight_transfer_amount := some 3 }

/-- Category DRIVE with only the elbow metric present. -/
def driveElbowMetrics : MetricsDict :=
  { shot_type := some "DRIVE", max_elbow_angle := some 170 }

/-! ## Helper lemmas on the phase machine -/

/-- The final stage of a processed frame is the three checks applied in order
to the resolved incoming stage. -/
theorem processFrame_stage (st : RunState) (f : Frame) :
    (processFrame st f).stage = check3 (check2 (check1 (resolveUnknown st.stage) f) f) f := rfl

/-- The phase data of a processed frame stores the samples at the final stage. -/
theorem processFrame_phaseData (st : RunState) (f : Frame) :
    (processFrame st f).phaseData = st.phaseData.store (processFrame st f).stage f := rfl

theorem idx_le_resolveUnknown (s : Stage) : s.idx ≤ (resolveUnknown s).idx := by
  cases s <;> decide

theorem idx_le_check1 (s : Stage) (f : Frame) : s.idx ≤ (check1 s f).idx := by
  unfold check1; split_ifs with h
  · rcases h.1 with h1 | h1 <;> (subst h1; decide)
  · exact le_refl _

theorem idx_le_check2 (s : Stage) (f : Frame) : s.idx ≤ (check2 s f).idx := by
  unfold check2; split_ifs with h
  · rw [h.1]; decide
  · exact le_refl _

theorem idx_le_check3 (s : Stage) (f : Frame) : s.idx ≤ (check3 s f).idx := by
  unfold check3; split_ifs with h
  · rw [h.1]; decide
  · exact le_refl _

/-- The stage index never decreases over one frame. -/
theorem idx_le_stepFrame (st : RunState) (f : Option Frame) :
    st.stage.idx ≤ (stepFrame st f).stage.idx := by
  cases f with
  | none => exact le_refl _
  | some fr =>
    rw [stepFrame, processFrame_stage]
    calc st.stage.idx ≤ (resolveUnknown st.stage).idx := idx_le_resolveUnknown _
      _ ≤ (check1 (resolveUnknown st.stage) fr).idx := idx_le_check1 _ _
      _ ≤ (check2 (check1 (resolveUnknown st.stage) fr) fr).idx := idx_le_check2 _ _
      _ ≤ (check3 (check2 (check1 (resolveUnknown st.stage) fr) fr) fr).idx := idx_le_check3 _ _

/-- The recorded trace, with the incoming stage prepended, is non-decreasing. -/
theorem chain_cons_runTrace (frames : List (Option Frame)) (st : RunState) :
    List.Chain' (fun a b => Stage.idx a ≤ Stage.idx b) (st.stage :: runTrace st frames) := by
  induction frames generalizing st with
  | nil => simp [runTrace]
  | cons f fs ih =>
    rw [runTrace]
    split_ifs with h
    · exact List.chain'_pair.mpr (idx_le_stepFrame st f)
    · exact (List.chain'_cons.mpr ⟨idx_le_stepFrame st f, ih (stepFrame st f)⟩)

/-- If a frame ends in a given stage, only that stage's accumulator changes. -/
theorem store_backlift_unchanged (pd : PhaseData) (s : Stage) (f : Frame)
    (h : s ≠ .BACKLIFT) : (pd.store s f).BACKLIFT = pd.BACKLIFT := by
  cases s <;> simp_all [PhaseData.store]

/-- A frame ending in `BACKLIFT` has its wrist at or below 0.9 of the nose. -/
theorem end_backlift_wrist_low (st : RunState) (f : Frame)
    (h : (processFrame st f).stage = .BACKLIFT) :
    f.leftWrist.y ≤ f.nose.y * (9/10) := by
  rw [processFrame_stage] at h
  have h2 : check2 (check1 (resolveUnknown st.stage) f) f = .BACKLIFT := by
    by_contra hne
    unfold check3 at h
    split_ifs at h with h3
    exact hne h
  unfold check2 at h2
  split_ifs at h2 with hc
  rw [not_and_or] at hc
  rcases hc with hc | hc
  · exact absurd h2 hc
  · exact le_of_not_lt hc

/-- A run with no detected frame leaves the state untouched. -/
theorem runFrames_all_none (frames : List (Option Frame)) (st : RunState)
    (h : ∀ f ∈ frames, f = none) (hs : ¬ stopAfter st) : runFrames st frames = st := by
  induction frames with
  | nil => rfl
  | cons f fs ih =>
    have hf : f = none := h f (by simp)
    subst hf
    rw [runFrames]
    simp only [stepFrame]
    rw [if_neg hs]
    exact ih fun g hg => h g (by simp [hg])

/-! ## Claims -/

/-- C1 (counterexample): on an empty input the terminal metrics record does
NOT carry the category `UNKNOWN` with all scalars 0: the classifier's first
rule holds vacuously and yields `DEFENSIVE` with confidence 0.85. -/
theorem empty_run_not_unknown :
    (analyze_cricket_shot []).shot_type = "DEFENSIVE" ∧
    (analyze_cricket_shot []).shot_type ≠ "UNKNOWN" ∧
    (analyze_cricket_shot []).shot_confidence = 85/100 := by
  norm_num [analyze_cricket_shot, runFrames, finalMetrics, detect_shot_type,
    bodyRotation, weightShift, backliftHeight, RunState.init, PhaseData.empty,
    PhaseAcc.empty, get_avg, get_last, list_max]
  decide

/-- C1 (amended): for an empty input, or one in which no frame has detectable
landmarks, the pipeline's terminal result is a fully-populated metrics record
with every scalar metric equal to 0, and the category label `DEFENSIVE` with
confidence 0.85 (not `UNKNOWN`: the classifier's first rule is satisfied by the
zero features); no operation fails. -/
theorem empty_run_all_zero_defensive (frames : List (Option Frame))
    (h : ∀ f ∈ frames, f = none) :
    analyze_cricket_shot frames =
      { stance_body_direction := 0, impact_body_direction := 0,
        body_rotation_over_time := [], stance_leg_direction := 0,
        impact_leg_direction := 0, weight_transfer_amount := 0,
        max_elbow_angle := 0, stance_knee_angle := 0, downswing_knee_angle := 0,
        stance_head_direction := 0, downswing_head_direction := 0,
        shot_type := "DEFENSIVE", shot_confidence := 85/100,
        body_rotation_total := 0, head_movement := 0, knee_bracing := 0 } := by
  unfold analyze_cricket_shot
  rw [runFrames_all_none frames RunState.init h (by decide)]
  norm_num [finalMetrics, detect_shot_type, bodyRotation, weightShift,
    backliftHeight, RunState.init, PhaseData.empty, PhaseAcc.empty,
    get_avg, get_last, list_max]

/-- C1 witness: the amended statement at the concrete input `[none]`. -/
theorem empty_run_all_zero_defensive_witness :
    (∀ f ∈ [(none : Option Frame)], f = none) ∧
    analyze_cricket_shot [none] =
      { stance_body_direction := 0, impact_body_direction := 0,
        body_rotation_over_time := [], stance_leg_direction := 0,
        impact_leg_direction := 0, weight_transfer_amount := 0,
        max_elbow_angle := 0, stance_knee_angle := 0, downswing_knee_angle := 0,
        stance_head_direction := 0, downswing_head_direction := 0,
        shot_type := "DEFENSIVE", shot_confidence := 85/100,
        body_rotation_total := 0, head_movement := 0, knee_bracing := 0 } :=
  ⟨by simp, empty_run_all_zero_defensive [none] (by simp)⟩

/-- C2: whenever rule 1's predicate holds (`rotation < 15`, `|shift| < 5`,
`backlift_ratio < 0.5`), the cascade returns `(DEFENSIVE, 0.85)` regardless of
any later rule's predicate: the seven rules are evaluated first-match-wins. -/
theorem rule1_first_match_defensive (pd : PhaseData)
    (h1 : bodyRotation pd < 15) (h2 : |weightShift pd| < 5)
    (h3 : backliftHeight pd < 1/2) :
    detect_shot_type pd = ("DEFENSIVE", 85/100) := by
  unfold detect_shot_type
  rw [if_pos ⟨h1, h2, h3⟩]


/-- C2 witness: at `rotation = 10`, `shift = 2`, `backlift_ratio = 0.3` the
result is `(DEFENSIVE, 0.85)`. -/
theorem rule1_first_match_defensive_witness :
    bodyRotation rule1pd = 10 ∧ weightShift rule1pd = 2 ∧
    backliftHeight rule1pd = 3/10 ∧
    detect_shot_type rule1pd = ("DEFENSIVE", 85/100) :=
  ⟨by norm_num [rule1pd, bodyRotation, get_avg, get_last],
   by norm_num [rule1pd, weightShift, get_avg, get_last],
   by norm_num [rule1pd, backliftHeight],
   rule1_first_match_defensive rule1pd
     (by norm_num [rule1pd, bodyRotation, get_avg, get_last])
     (by norm_num [rule1pd, weightShift, get_avg, get_last])
     (by norm_num [rule1pd, backliftHeight])⟩

/-- C3: for every detected frame, the final stage is obtained by running the
three transition checks in the fixed order 1, 2, 3, each reading the stage as
already updated earlier in the same frame (so several may fire in one frame);
the frame's samples are then appended to the accumulator of the resulting
stage, with the elbow angle appended exactly when that stage is `DOWNSWING`. -/
theorem frame_transition_cascade_append (st : RunState) (f : Frame) :
    (processFrame st f).stage = check3 (check2 (check1 (resolveUnknown st.stage) f) f) f ∧
    (processFrame st f).phaseData = st.phaseData.store (processFrame st f).stage f ∧
    ((processFrame st f).phaseData).DOWNSWING.elbowAngles =
      st.phaseData.DOWNSWING.elbowAngles ++
        (if (processFrame st f).stage = .DOWNSWING then [f.elbowAngle] else []) := by
  refine ⟨processFrame_stage st f, processFrame_phaseData st f, ?_⟩
  rw [processFrame_phaseData st f]
  generalize (processFrame st f).stage = s
  cases s <;> simp [PhaseData.store, PhaseAcc.push]

/-- C4: over every input run, the sequence of phase values recorded at the end
of each processed frame is non-decreasing in the order
`UNKNOWN < STANCE < BACKLIFT < DOWNSWING < FOLLOW_THROUGH` (in particular in
the claimed order on the four proper phases: no transition moves backwards). -/
theorem phase_trace_monotone (frames : List (Option Frame)) :
    List.Chain' (fun a b => Stage.idx a ≤ Stage.idx b)
      (runTrace RunState.init frames) :=
  (chain_cons_runTrace frames RunState.init).tail

/-- C10: a sample is stored into the `BACKLIFT` accumulator only for a frame
whose leading wrist y is at most 0.9 of the nose y; and a detected frame whose
wrist y lies strictly between 0.9 and 1.1 of the nose y never ends the frame in
`BACKLIFT` (check 2 re-fires on the stage check 1 just set). -/
theorem backlift_samples_wrist_low (st : RunState) (f : Frame) :
    ((processFrame st f).phaseData.BACKLIFT ≠ st.phaseData.BACKLIFT →
      f.leftWrist.y ≤ f.nose.y * (9/10)) ∧
    (f.nose.y * (9/10) < f.leftWrist.y → f.leftWrist.y < f.nose.y * (11/10) →
      (processFrame st f).stage ≠ .BACKLIFT) := by
  constructor
  · intro hne
    by_contra hw
    have hstage : (processFrame st f).stage ≠ .BACKLIFT := by
      intro hb
      exact hw (end_backlift_wrist_low st f hb)
    rw [processFrame_phaseData st f] at hne
    exact hne (store_backlift_unchanged st.phaseData _ f hstage)
  · intro hlow _ hb
    exact absurd (end_backlift_wrist_low st f hb) (not_le.mpr hlow)


/-- C10 witness: both implications discharged at concrete frames. -/
theorem backlift_samples_wrist_low_witness :
    ((processFrame RunState.init lowWristFrame).phaseData.BACKLIFT ≠
      RunState.init.phaseData.BACKLIFT ∧
      lowWristFrame.leftWrist.y ≤ lowWristFrame.nose.y * (9/10)) ∧
    (midFrame.nose.y * (9/10) < midFrame.leftWrist.y ∧
      midFrame.leftWrist.y < midFrame.nose.y * (11/10) ∧
      (processFrame RunState.init midFrame).stage ≠ .BACKLIFT) := by
  have hne : (processFrame RunState.init lowWristFrame).phaseData.BACKLIFT ≠
      RunState.init.phaseData.BACKLIFT := by
    unfold processFrame lowWristFrame midFrame RunState.init
    norm_num [PhaseData.empty, PhaseAcc.empty, PhaseData.store, PhaseAcc.push,
      weight_transfer]
  refine ⟨⟨hne, (backlift_samples_wrist_low RunState.init lowWristFrame).1 hne⟩,
    ?_, ?_, ?_⟩
  · norm_num [midFrame]
  · norm_num [midFrame]
  · exact (backlift_samples_wrist_low RunState.init midFrame).2
      (by norm_num [midFrame]) (by norm_num [midFrame])


/-- C5 (counterexample): with an empty `STANCE` accumulator and a nonempty
`DOWNSWING.body_directions`, the classifier's rotation feature is 0 while the
aggregator's `body_rotation_total` is 5: they are not equal in general. -/
theorem classifier_aggregator_rotation_mismatch :
    bodyRotation mismatchPd = 0 ∧
    (finalMetrics mismatchPd).body_rotation_total = 5 ∧
    bodyRotation mismatchPd ≠ (finalMetrics mismatchPd).body_rotation_total := by
  norm_num [mismatchPd, bodyRotation, finalMetrics, get_avg, get_last,
    PhaseAcc.empty]

/-- C5 (amended): the classifier's rotation feature equals the aggregator's
`body_rotation_total`, and its shift feature equals `weight_transfer_amount`,
whenever the `STANCE` and `DOWNSWING` lists they read are both nonempty (the
classifier's guard); when a guard fails the classifier uses 0 while the
aggregator applies the empty-list conventions, and the two can differ. -/
theorem classifier_aggregator_agree_nonempty (pd : PhaseData) :
    (pd.STANCE.bodyDirections ≠ [] → pd.DOWNSWING.bodyDirections ≠ [] →
      bodyRotation pd = (finalMetrics pd).body_rotation_total) ∧
    (pd.STANCE.weightTransfers ≠ [] → pd.DOWNSWING.weightTransfers ≠ [] →
      weightShift pd = (finalMetrics pd).weight_transfer_amount) := by
  constructor
  · intro h1 h2
    have : (finalMetrics pd).body_rotation_total =
        |get_avg pd.STANCE.bodyDirections - get_last pd.DOWNSWING.bodyDirections| := rfl
    rw [this, bodyRotation, if_pos ⟨h1, h2⟩]
  · intro h1 h2
    have : (finalMetrics pd).weight_transfer_amount =
        (get_last pd.DOWNSWING.weightTransfers - get_avg pd.STANCE.weightTransfers) * 100 := rfl
    rw [this, weightShift, if_pos ⟨h1, h2⟩]


/-- C5 witness: the amended equalities at concrete nonempty accumulators. -/
theorem classifier_aggregator_agree_nonempty_witness :
    bodyRotation agreePd = (finalMetrics agreePd).body_rotation_total ∧
    weightShift agreePd = (finalMetrics agreePd).weight_transfer_amount :=
  ⟨(classifier_aggregator_agree_nonempty agreePd).1 (by decide) (by decide),
   (classifier_aggregator_agree_nonempty agreePd).2 (by decide) (by decide)⟩

/-! ## Helper lemmas on the metric score -/

/-- The body of `_calculate_metric_score` with the tuple projected away. -/
theorem calculate_metric_score_def (v lo hi : ℚ) :
    calculate_metric_score v (lo, hi) =
      if lo ≤ v ∧ v ≤ hi then
        if (hi - lo) / 2 > 0 then 100 - |v - (lo + hi) / 2| / ((hi - lo) / 2) * 20 else 100
      else if v < lo then max (80 - min ((lo - v) * 2) 50) 20
      else max (80 - min ((v - hi) * 2) 50) 20 := rfl

/-- Inside the band with a positive half-width, the score is the in-band
formula. -/
theorem score_in_band_eq (lo hi v : ℚ) (h1 : lo ≤ v) (h2 : v ≤ hi)
    (hh : 0 < (hi - lo) / 2) :
    calculate_metric_score v (lo, hi) = 100 - |v - (lo + hi) / 2| / ((hi - lo) / 2) * 20 := by
  rw [calculate_metric_score_def, if_pos ⟨h1, h2⟩, if_pos hh]

/-- Outside the band the score depends only on the distance from the midpoint
beyond the half-width. -/
theorem score_out_band (lo hi u : ℚ) (hle : lo ≤ hi)
    (h : (hi - lo) / 2 < |u - (lo + hi) / 2|) :
    calculate_metric_score u (lo, hi) =
      max (80 - min ((|u - (lo + hi) / 2| - (hi - lo) / 2) * 2) 50) 20 := by
  rcases abs_cases (u - (lo + hi) / 2) with ⟨he, hnn⟩ | ⟨he, hneg⟩
  · have hu : hi < u := by rw [he] at h; linarith
    have hd : |u - (lo + hi) / 2| - (hi - lo) / 2 = u - hi := by rw [he]; ring
    rw [calculate_metric_score_def, hd,
      if_neg (fun hc => absurd hc.2 (not_le.mpr hu)), if_neg (by linarith)]
  · have hu : u < lo := by rw [he] at h; linarith
    have hd : |u - (lo + hi) / 2| - (hi - lo) / 2 = lo - u := by rw [he]; ring
    rw [calculate_metric_score_def, hd,
      if_neg (fun hc => absurd hc.1 (not_le.mpr hu)), if_pos hu]

/-- The score is at most 100. -/
theorem score_le_100 (lo hi v : ℚ) (hle : lo ≤ hi) :
    calculate_metric_score v (lo, hi) ≤ 100 := by
  rw [calculate_metric_score_def]
  split_ifs with h1 h2 h3
  · have hd : 0 ≤ |v - (lo + hi) / 2| / ((hi - lo) / 2) :=
      div_nonneg (abs_nonneg _) (le_of_lt h2)
    nlinarith
  · exact le_refl _
  · refine max_le ?_ (by norm_num)
    have hm : (0 : ℚ) ≤ min ((lo - v) * 2) 50 := le_min (by nlinarith) (by norm_num)
    linarith
  · refine max_le ?_ (by norm_num)
    have hv : hi < v := by
      rcases not_and_or.mp h1 with hc | hc
      · exact absurd (le_of_not_lt h3) hc
      · exact lt_of_not_le hc
    have hm : (0 : ℚ) ≤ min ((v - hi) * 2) 50 := le_min (by nlinarith) (by norm_num)
    linarith

/-- The score is at least 20. -/
theorem score_ge_20 (lo hi v : ℚ) (hle : lo ≤ hi) :
    20 ≤ calculate_metric_score v (lo, hi) := by
  rw [calculate_metric_score_def]
  split_ifs with h1 h2 h3
  · have hd : |v - (lo + hi) / 2| ≤ (hi - lo) / 2 :=
      abs_le.mpr ⟨by linarith [h1.1, h1.2], by linarith [h1.1, h1.2]⟩
    have hq : |v - (lo + hi) / 2| / ((hi - lo) / 2) ≤ 1 := (div_le_one h2).mpr hd
    nlinarith
  · norm_num
  · exact le_max_right _ _
  · exact le_max_right _ _

/-- Antitonicity of the out-of-band score in the distance from the midpoint. -/
theorem score_mono_out (lo hi v w : ℚ) (hle : lo ≤ hi)
    (hv : (hi - lo) / 2 < |v - (lo + hi) / 2|)
    (hvw : |v - (lo + hi) / 2| ≤ |w - (lo + hi) / 2|) :
    calculate_metric_score w (lo, hi) ≤ calculate_metric_score v (lo, hi) := by
  have hw : (hi - lo) / 2 < |w - (lo + hi) / 2| := lt_of_lt_of_le hv hvw
  rw [score_out_band lo hi v hle hv, score_out_band lo hi w hle hw]
  have h1 : min ((|v - (lo + hi) / 2| - (hi - lo) / 2) * 2) 50 ≤
      min ((|w - (lo + hi) / 2| - (hi - lo) / 2) * 2) 50 :=
    min_le_min (by linarith) (le_refl _)
  exact max_le_max (by linarith) (le_refl _)

/-- C6: the metric score rule.  Writing `mid = (lo+hi)/2` and
`half = (hi-lo)/2`: inside the band (with positive half-width) the score is
`100 - 20*|v-mid|/half`, and `100` when `half = 0`; outside it is
`max (80 - min (2*dist_to_edge) 50) 20`; the midpoint scores 100; the score
stays within `[20, 100]`; and it is non-increasing as `|v-mid|` grows past
`half`. -/
theorem metric_score_spec (lo hi v : ℚ) (hle : lo ≤ hi) :
    (lo ≤ v → v ≤ hi → 0 < (hi - lo) / 2 →
      calculate_metric_score v (lo, hi) =
        100 - 20 * |v - (lo + hi) / 2| / ((hi - lo) / 2)) ∧
    (lo ≤ v → v ≤ hi → (hi - lo) / 2 = 0 →
      calculate_metric_score v (lo, hi) = 100) ∧
    (v < lo →
      calculate_metric_score v (lo, hi) = max (80 - min ((lo - v) * 2) 50) 20) ∧
    (hi < v →
      calculate_metric_score v (lo, hi) = max (80 - min ((v - hi) * 2) 50) 20) ∧
    calculate_metric_score ((lo + hi) / 2) (lo, hi) = 100 ∧
    20 ≤ calculate_metric_score v (lo, hi) ∧
    calculate_metric_score v (lo, hi) ≤ 100 ∧
    (∀ w, (hi - lo) / 2 ≤ |v - (lo + hi) / 2| →
      |v - (lo + hi) / 2| ≤ |w - (lo + hi) / 2| →
      calculate_metric_score w (lo, hi) ≤ calculate_metric_score v (lo, hi)) := by
  refine ⟨?_, ?_, ?_, ?_, ?_, score_ge_20 lo hi v hle, score_le_100 lo hi v hle, ?_⟩
  · intro h1 h2 hh
    rw [score_in_band_eq lo hi v h1 h2 hh]
    ring
  · intro h1 h2 hh
    rw [calculate_metric_score_def, if_pos ⟨h1, h2⟩, if_neg (by rw [hh]; exact lt_irrefl 0)]
  · intro hv
    rw [calculate_metric_score_def,
      if_neg (fun hc => absurd hc.1 (not_le.mpr hv)), if_pos hv]
  · intro hv
    rw [calculate_metric_score_def,
      if_neg (fun hc => absurd hc.2 (not_le.mpr hv)), if_neg (by linarith)]
  · rw [calculate_metric_score_def, if_pos ⟨by linarith, by linarith⟩]
    split_ifs with hh
    · rw [sub_self, abs_zero, zero_div, zero_mul, sub_zero]
    · rfl
  · intro w h1 h2
    rcases lt_or_le ((hi - lo) / 2) (|v - (lo + hi) / 2|) with hv | hv
    · exact score_mono_out lo hi v w hle hv h2
    · have hdv : |v - (lo + hi) / 2| = (hi - lo) / 2 := le_antisymm hv h1
      rcases eq_or_lt_of_le (by linarith : (0 : ℚ) ≤ (hi - lo) / 2) with hz | hz
      · have h100 : calculate_metric_score v (lo, hi) = 100 := by
          have hv0 : |v - (lo + hi) / 2| = 0 := by rw [hdv, ← hz]
          have hveq : v = (lo + hi) / 2 := by
            have := abs_eq_zero.mp hv0; linarith
          rw [calculate_metric_score_def, if_pos ⟨by linarith, by linarith⟩,
            if_neg (by rw [← hz]; exact lt_irrefl 0)]
        rw [h100]
        exact score_le_100 lo hi w hle
      · have h80 : calculate_metric_score v (lo, hi) = 80 := by
          have hband := abs_le.mp hv
          rw [score_in_band_eq lo hi v (by linarith [hband.1]) (by linarith [hband.2]) hz,
            hdv, div_self (ne_of_gt hz)]
          norm_num
        rw [h80]
        rcases lt_or_le ((hi - lo) / 2) (|w - (lo + hi) / 2|) with hw | hw
        · rw [score_out_band lo hi w hle hw]
          refine max_le ?_ (by norm_num)
          have hm : (0 : ℚ) ≤ min ((|w - (lo + hi) / 2| - (hi - lo) / 2) * 2) 50 :=
            le_min (by nlinarith [abs_nonneg (w - (lo + hi) / 2)]) (by norm_num)
          linarith
        · have hdw : |w - (lo + hi) / 2| = (hi - lo) / 2 := le_antisymm hw (by linarith)
          have hband := abs_le.mp hw
          rw [score_in_band_eq lo hi w (by linarith [hband.1]) (by linarith [hband.2]) hz,
            hdw, div_self (ne_of_gt hz)]
          norm_num

/-- C6 witness: the theorem applied at the band `(0, 10)` and the out-of-band
value 12. -/
theorem metric_score_spec_witness :
    (0 : ℚ) ≤ 10 ∧ (10 : ℚ) < 12 ∧
    calculate_metric_score 12 (0, 10) = max (80 - min (((12 : ℚ) - 10) * 2) 50) 20 :=
  ⟨by norm_num, by norm_num,
   (metric_score_spec 0 10 12 (by norm_num)).2.2.2.1 (by norm_num)⟩

/-- C7: the two-attempt comparison depends on the follow-up record only through
its metric values: every band selection, score, delta, both accuracies and the
verdict use the original attempt's category, and changing only the follow-up's
category field changes only the recorded `followup_shot_type` field of the
result. -/
theorem followup_category_noninterference (orig fu : MetricsDict) (c : Option String) :
    analyze_improvement orig { fu with shot_type := c } =
      { analyze_improvement orig fu with followup_shot_type := c.getD "FORWARD SHOT" } := by
  cases fu
  rfl

theorem append_ne_empty_left (s t : String) (h : s ≠ "") : s ++ t ≠ "" := by
  intro he
  apply h
  have hd := congrArg String.data he
  rw [String.data_append] at hd
  rcases List.append_eq_nil.mp hd with ⟨h1, _⟩
  cases s
  simp only at h1
  simp [h1]

theorem append3_ne (a b c : String) (h : a ≠ "") : a ++ b ++ c ≠ "" :=
  append_ne_empty_left _ _ (append_ne_empty_left _ _ h)

set_option maxHeartbeats 1000000 in
theorem feedback_key_ne (a : MetricAnalysis) (shot ft : String)
    (hshot : shot = "DRIVE" ∨ shot = "FORWARD SHOT" ∨ shot = "PULL/HOOK" ∨ shot = "CUT")
    (hft : ft = "strength" ∨ ft = "flaw")
    (key : String)
    (hkey : key = "elbow_angle" ∨ key = "weight_transfer" ∨ key = "body_rotation" ∨
      key = "head_stability" ∨ key = "knee_bracing" ∨ key = "stance_knee") :
    get_contextual_feedback key a shot ft ≠ "" := by
  rcases hft with h | h <;> subst h <;>
    rcases hshot with h | h | h | h <;> subst h <;>
    rcases hkey with h | h | h | h | h | h <;> subst h <;>
    simp only [get_contextual_feedback] <;>
    simp <;>
    first
      | decide
      | exact append3_ne _ _ _ (by decide)
      | (split_ifs <;> first | decide | exact append3_ne _ _ _ (by decide))

theorem lookup_mem_values {α β : Type} [BEq α] :
    ∀ (l : List (α × β)) (a : α) (b : β), l.lookup a = some b → b ∈ l.map Prod.snd := by
  intro l
  induction l with
  | nil => intro a b h; simp [List.lookup] at h
  | cons p rest ih =>
    intro a b h
    obtain ⟨k, v⟩ := p
    rw [List.lookup] at h
    cases hba : (a == k) with
    | true => rw [hba] at h; injection h with h; simp [h]
    | false =>
      rw [hba] at h
      simp only [List.map_cons, List.mem_cons]
      exact Or.inr (ih a b h)

theorem gssr_entries_ne (shot : String) (drillPick : ℕ) :
    ∀ r ∈ get_shot_specific_recommendations shot drillPick, r ≠ "" := by
  intro r hr
  unfold get_shot_specific_recommendations at hr
  rcases hl : shot_advice_drills.lookup shot with _ | drills
  · rw [hl] at hr; simp at hr
  · rw [hl] at hr
    simp only [List.mem_append] at hr
    rcases hr with hr | hr
    · rcases ht : pro_tips.lookup shot with _ | tip
      · rw [ht] at hr; simp at hr
      · rw [ht] at hr
        have hm := lookup_mem_values pro_tips shot tip ht
        have hall : ∀ x ∈ pro_tips.map Prod.snd, x ≠ "" := by decide
        simp at hr
        subst hr
        exact hall _ hm
    · split_ifs at hr with hd
      · simp at hr
        subst hr
        exact append_ne_empty_left _ _ (by decide)
      · simp at hr

theorem analyze_metrics_keys (metrics : MetricsDict) (shot : String)
    (p : String × MetricAnalysis) (hp : p ∈ analyze_metrics metrics shot) :
    p.1 = "elbow_angle" ∨ p.1 = "weight_transfer" ∨ p.1 = "body_rotation" ∨
    p.1 = "head_stability" ∨ p.1 = "knee_bracing" ∨ p.1 = "stance_knee" := by
  unfold analyze_metrics at hp
  simp only [List.mem_append] at hp
  rcases hp with ((((hp | hp) | hp) | hp) | hp) | hp
  · revert hp; cases metrics.max_elbow_angle <;> intro hp <;> simp_all
  · revert hp; cases metrics.weight_transfer_amount <;> intro hp <;> simp_all
  · revert hp; cases metrics.body_rotation_total <;> intro hp <;> simp_all
  · revert hp; cases metrics.head_movement <;> intro hp <;> simp_all
  · revert hp
    cases metrics.knee_bracing with
    | none => intro hp; simp_all
    | some v =>
      intro hp
      rcases hopt : kneeBracingAnalysis v shot with _ | a <;> simp_all
  · revert hp; cases metrics.stance_knee_angle <;> intro hp <;> simp_all

theorem generate_advice_strengths (metrics : MetricsDict) (drillPick : ℕ) :
    (generate_advice metrics drillPick).strengths =
      if strengthsList (analyze_metrics metrics (metrics.shot_type.getD "UNKNOWN"))
          (metrics.shot_type.getD "UNKNOWN") = [] then
        ["✅ Good attempt - continue practicing to refine your technique"]
      else strengthsList (analyze_metrics metrics (metrics.shot_type.getD "UNKNOWN"))
        (metrics.shot_type.getD "UNKNOWN") := rfl

theorem generate_advice_flaws (metrics : MetricsDict) (drillPick : ℕ) :
    (generate_advice metrics drillPick).flaws =
      if flawsList (analyze_metrics metrics (metrics.shot_type.getD "UNKNOWN"))
          (metrics.shot_type.getD "UNKNOWN") = [] then
        ["✅ Solid technique overall - minor refinements will take you to the next level"]
      else flawsList (analyze_metrics metrics (metrics.shot_type.getD "UNKNOWN"))
        (metrics.shot_type.getD "UNKNOWN") := rfl

theorem generate_advice_recommendations (metrics : MetricsDict) (drillPick : ℕ) :
    (generate_advice metrics drillPick).recommendations =
      if recsFromFlaws (analyze_metrics metrics (metrics.shot_type.getD "UNKNOWN"))
            (metrics.shot_type.getD "UNKNOWN") ++
          (get_shot_specific_recommendations (metrics.shot_type.getD "UNKNOWN")
            drillPick).take 2 = [] then
        ["💡 Keep practicing your current technique with focus on consistency"]
      else recsFromFlaws (analyze_metrics metrics (metrics.shot_type.getD "UNKNOWN"))
            (metrics.shot_type.getD "UNKNOWN") ++
        (get_shot_specific_recommendations (metrics.shot_type.getD "UNKNOWN")
          drillPick).take 2 := rfl

theorem strengths_entries_ne (metrics : MetricsDict) (drillPick : ℕ)
    (hshot : metrics.shot_type.getD "UNKNOWN" = "DRIVE" ∨
      metrics.shot_type.getD "UNKNOWN" = "FORWARD SHOT" ∨
      metrics.shot_type.getD "UNKNOWN" = "PULL/HOOK" ∨
      metrics.shot_type.getD "UNKNOWN" = "CUT") :
    ∀ s ∈ (generate_advice metrics drillPick).strengths, s ≠ "" := by
  intro s hs
  rw [generate_advice_strengths] at hs
  split_ifs at hs with h
  · simp at hs; subst hs; decide
  · unfold strengthsList at hs
    rcases List.mem_map.mp hs with ⟨p, hpmem, rfl⟩
    have hpma := List.mem_of_mem_filter (List.mem_of_mem_take hpmem)
    exact feedback_key_ne p.2 _ "strength" hshot (Or.inl rfl) p.1
      (analyze_metrics_keys metrics _ p hpma)

theorem flaws_entries_ne (metrics : MetricsDict) (drillPick : ℕ)
    (hshot : metrics.shot_type.getD "UNKNOWN" = "DRIVE" ∨
      metrics.shot_type.getD "UNKNOWN" = "FORWARD SHOT" ∨
      metrics.shot_type.getD "UNKNOWN" = "PULL/HOOK" ∨
      metrics.shot_type.getD "UNKNOWN" = "CUT") :
    ∀ s ∈ (generate_advice metrics drillPick).flaws, s ≠ "" := by
  intro s hs
  rw [generate_advice_flaws] at hs
  split_ifs at hs with h
  · simp at hs; subst hs; decide
  · unfold flawsList at hs
    rcases List.mem_map.mp hs with ⟨p, hpmem, rfl⟩
    have hpq := List.mem_of_mem_take hpmem
    unfold priority_flaws at hpq
    have hpma : p ∈ analyze_metrics metrics (metrics.shot_type.getD "UNKNOWN") := by
      rcases List.mem_append.mp hpq with hq | hq
      · exact List.mem_of_mem_filter hq
      · exact List.mem_of_mem_filter hq
    exact feedback_key_ne p.2 _ "flaw" hshot (Or.inr rfl) p.1
      (analyze_metrics_keys metrics _ p hpma)

theorem recommendations_entries_ne (metrics : MetricsDict) (drillPick : ℕ) :
    ∀ r ∈ (generate_advice metrics drillPick).recommendations, r ≠ "" := by
  intro r hr
  rw [generate_advice_recommendations] at hr
  split_ifs at hr with h
  · simp at hr; subst hr; decide
  · rcases List.mem_append.mp hr with hq | hq
    · unfold recsFromFlaws at hq
      have := (List.mem_filter.mp hq).2
      exact of_decide_eq_true this
    · exact gssr_entries_ne _ drillPick r (List.mem_of_mem_take hq)

/-- C8: for every metrics record, the advice lists obey strengths ≤ 3,
flaws ≤ 4, recommendations ≤ 5, none of the three is empty, and a list that
would be empty is replaced by exactly one fixed generic string. -/
theorem advice_list_bounds (metrics : MetricsDict) (drillPick : ℕ) :
    ((generate_advice metrics drillPick).strengths.length ≤ 3 ∧
     (generate_advice metrics drillPick).flaws.length ≤ 4 ∧
     (generate_advice metrics drillPick).recommendations.length ≤ 5) ∧
    ((generate_advice metrics drillPick).strengths ≠ [] ∧
     (generate_advice metrics drillPick).flaws ≠ [] ∧
     (generate_advice metrics drillPick).recommendations ≠ []) ∧
    (strengthsList (analyze_metrics metrics (metrics.shot_type.getD "UNKNOWN"))
        (metrics.shot_type.getD "UNKNOWN") = [] →
      (generate_advice metrics drillPick).strengths =
        ["✅ Good attempt - continue practicing to refine your technique"]) ∧
    (flawsList (analyze_metrics metrics (metrics.shot_type.getD "UNKNOWN"))
        (metrics.shot_type.getD "UNKNOWN") = [] →
      (generate_advice metrics drillPick).flaws =
        ["✅ Solid technique overall - minor refinements will take you to the next level"]) ∧
    (recsFromFlaws (analyze_metrics metrics (metrics.shot_type.getD "UNKNOWN"))
          (metrics.shot_type.getD "UNKNOWN") ++
        (get_shot_specific_recommendations (metrics.shot_type.getD "UNKNOWN")
          drillPick).take 2 = [] →
      (generate_advice metrics drillPick).recommendations =
        ["💡 Keep practicing your current technique with focus on consistency"]) := by
  refine ⟨⟨?_, ?_, ?_⟩, ⟨?_, ?_, ?_⟩, ?_, ?_, ?_⟩
  · rw [generate_advice_strengths]
    split_ifs with h
    · simp
    · simp only [strengthsList, List.length_map, List.length_take]
      omega
  · rw [generate_advice_flaws]
    split_ifs with h
    · simp
    · simp only [flawsList, List.length_map, List.length_take]
      omega
  · rw [generate_advice_recommendations]
    split_ifs with h
    · simp
    · rw [List.length_append]
      have h1 : (recsFromFlaws (analyze_metrics metrics (metrics.shot_type.getD "UNKNOWN"))
          (metrics.shot_type.getD "UNKNOWN")).length ≤ 3 := by
        unfold recsFromFlaws
        calc (List.filter _ (List.map _ ((priority_flaws _).take 3))).length
            ≤ (List.map (fun p => get_contextual_feedback p.1 p.2
                (metrics.shot_type.getD "UNKNOWN") "recommendation")
                ((priority_flaws (analyze_metrics metrics
                  (metrics.shot_type.getD "UNKNOWN"))).take 3)).length :=
              List.length_filter_le _ _
          _ ≤ 3 := by simp [List.length_take]
      have h2 : ((get_shot_specific_recommendations (metrics.shot_type.getD "UNKNOWN")
          drillPick).take 2).length ≤ 2 := by simp [List.length_take]
      omega
  · rw [generate_advice_strengths]
    split_ifs with h
    · simp
    · exact h
  · rw [generate_advice_flaws]
    split_ifs with h
    · simp
    · exact h
  · rw [generate_advice_recommendations]
    split_ifs with h
    · simp
    · exact h
  · intro h
    rw [generate_advice_strengths, if_pos h]
  · intro h
    rw [generate_advice_flaws, if_pos h]
  · intro h
    rw [generate_advice_recommendations, if_pos h]

/-- C8 witness: on a record with no metric keys all three pre-lists are empty
and each list is replaced by its fixed generic string. -/
theorem advice_list_bounds_witness :
    strengthsList (analyze_metrics emptyMetrics (emptyMetrics.shot_type.getD "UNKNOWN"))
      (emptyMetrics.shot_type.getD "UNKNOWN") = [] ∧
    (generate_advice emptyMetrics 0).strengths =
      ["✅ Good attempt - continue practicing to refine your technique"] ∧
    (generate_advice emptyMetrics 0).flaws =
      ["✅ Solid technique overall - minor refinements will take you to the next level"] ∧
    (generate_advice emptyMetrics 0).recommendations =
      ["💡 Keep practicing your current technique with focus on consistency"] :=
  ⟨rfl, (advice_list_bounds emptyMetrics 0).2.2.1 rfl,
   (advice_list_bounds emptyMetrics 0).2.2.2.1 rfl,
   (advice_list_bounds emptyMetrics 0).2.2.2.2 rfl⟩

/-- C9 (counterexample): with category DEFENSIVE and only the weight-transfer
metric present, the metric is rated excellent but the strength feedback table
has no entry for that category, so the strengths list is `[""]`: an advice
entry can be the empty string. -/
theorem advice_empty_string_entry :
    (generate_advice defensiveWeightMetrics 0).strengths = [""] ∧
    ¬ (∀ s ∈ (generate_advice defensiveWeightMetrics 0).strengths, s ≠ "") := by
  have h : (generate_advice defensiveWeightMetrics 0).strengths = [""] := by
    rw [generate_advice_strengths]
    norm_num +decide [defensiveWeightMetrics, analyze_metrics, weightAnalysis,
      strengthsList, get_contextual_feedback]
  exact ⟨h, fun hall => hall "" (h ▸ List.mem_singleton.mpr rfl) rfl⟩

/-- C9 (amended): every recommendations entry is a non-empty string for every
input; every strengths and flaws entry is non-empty whenever the category is
one of DRIVE, FORWARD SHOT, PULL/HOOK, CUT (for other categories the
weight-transfer feedback has no table entry and the empty string can appear). -/
theorem advice_entries_nonempty_amended (metrics : MetricsDict) (drillPick : ℕ) :
    (∀ r ∈ (generate_advice metrics drillPick).recommendations, r ≠ "") ∧
    ((metrics.shot_type.getD "UNKNOWN" = "DRIVE" ∨
      metrics.shot_type.getD "UNKNOWN" = "FORWARD SHOT" ∨
      metrics.shot_type.getD "UNKNOWN" = "PULL/HOOK" ∨
      metrics.shot_type.getD "UNKNOWN" = "CUT") →
      (∀ s ∈ (generate_advice metrics drillPick).strengths, s ≠ "") ∧
      (∀ s ∈ (generate_advice metrics drillPick).flaws, s ≠ "")) :=
  ⟨recommendations_entries_ne metrics drillPick,
   fun hshot => ⟨strengths_entries_ne metrics drillPick hshot,
     flaws_entries_ne metrics drillPick hshot⟩⟩

/-- C9 witness: the amended statement at a concrete DRIVE record. -/
theorem advice_entries_nonempty_amended_witness :
    (driveElbowMetrics.shot_type.getD "UNKNOWN" = "DRIVE" ∨
      driveElbowMetrics.shot_type.getD "UNKNOWN" = "FORWARD SHOT" ∨
      driveElbowMetrics.shot_type.getD "UNKNOWN" = "PULL/HOOK" ∨
      driveElbowMetrics.shot_type.getD "UNKNOWN" = "CUT") ∧
    ((∀ s ∈ (generate_advice driveElbowMetrics 0).strengths, s ≠ "") ∧
     (∀ s ∈ (generate_advice driveElbowMetrics 0).flaws, s ≠ "")) :=
  ⟨Or.inl rfl, (advice_entries_nonempty_amended driveElbowMetrics 0).2 (Or.inl rfl)⟩

end Cricket
